import Mathlib

/-!
Verification development for the CynerraVARM scan orchestration engine
(backend/app: scan_service.py, utils/nmap_runner.py, utils/nmap_parser.py,
utils/risk_logic.py, models.py).

The Python sources are shallowly embedded: pure functions become Lean
functions on `String`/`List Char`/`Rat`; the Firestore document store
becomes an explicit association-list state; fallible parsing returns
`Option`/`Except`.  Machine floats in the source only ever carry small
decimal fractions and are modelled by `Rat`.
-/

namespace Cynerra

/-! ## Python string primitives -/

/-- Characters treated as whitespace by Python `str.strip` / `str.split`. -/
def pyIsSpace (c : Char) : Bool :=
  c == ' ' || c == '\t' || c == '\n' || c == '\r' || c == Char.ofNat 11 || c == Char.ofNat 12

/-- Drop leading and trailing whitespace from a character list. -/
def stripChars (cs : List Char) : List Char :=
  ((cs.dropWhile pyIsSpace).reverse.dropWhile pyIsSpace).reverse

/-- Model of Python `str.strip()`. -/
def pyStrip (s : String) : String := ⟨stripChars s.data⟩

/-- Separator characters used by `targets.replace(",", " ").split()`. -/
def isSepChar (c : Char) : Bool := c == ',' || pyIsSpace c

/-- Maximal runs of non-separator characters (tokens), in order. -/
def tokensAux : List Char → List Char → List (List Char)
  | [], cur => if cur.isEmpty then [] else [cur.reverse]
  | c :: rest, cur =>
    if isSepChar c then
      if cur.isEmpty then tokensAux rest [] else cur.reverse :: tokensAux rest []
    else tokensAux rest (c :: cur)

/-- Model of `[t.strip() for t in s.replace(",", " ").split() if t.strip()]`. -/
def pyTokens (s : String) : List String := (tokensAux s.data []).map fun cs => ⟨cs⟩

/-- Substring membership on character lists (model of Python `in` on strings). -/
def listContainsSub : List Char → List Char → Bool
  | _, [] => true
  | [], _ :: _ => false
  | a :: rest, n :: nrest =>
    (List.isPrefixOf (n :: nrest) (a :: rest)) || listContainsSub rest (n :: nrest)

/-- Model of Python `sub in s` for strings. -/
def strContains (s sub : String) : Bool := listContainsSub s.data sub.data

/-- Model of Python `str.lower()` (ASCII case folding suffices here). -/
def pyLower (s : String) : String := ⟨s.data.map Char.toLower⟩

/-- Numeric value of a decimal digit string. -/
def natOfDigits (cs : List Char) : Nat :=
  cs.foldl (fun n c => n * 10 + (c.toNat - 48)) 0

/-- Model of Python `str.isdigit()` restricted to ASCII inputs. -/
def pyIsDigitStr (cs : List Char) : Bool := !cs.isEmpty && cs.all Char.isDigit

/-- Model of Python `int(s)` for decimal literals: surrounding whitespace and an
optional sign are accepted; digit-group underscores are not modelled. -/
def pyIntOfStr? (s : String) : Option Int :=
  let cs := stripChars s.data
  match cs with
  | '-' :: ds => if pyIsDigitStr ds then some (-(natOfDigits ds : Int)) else none
  | '+' :: ds => if pyIsDigitStr ds then some ((natOfDigits ds : Int)) else none
  | ds => if pyIsDigitStr ds then some ((natOfDigits ds : Int)) else none

/-- Split a character list at every occurrence of `sep`, keeping empty pieces
(model of Python `str.split(sep)`). -/
def splitOnChar (sep : Char) : List Char → List (List Char)
  | [] => [[]]
  | c :: rest =>
    if c == sep then [] :: splitOnChar sep rest
    else
      match splitOnChar sep rest with
      | t :: ts => (c :: t) :: ts
      | [] => [[c]]

/-! ## Model of CPython `ipaddress` literal parsing

`ipaddress.ip_address` accepts IPv4 dotted quads (no leading zeros, each
octet at most 255) and IPv6 literals, where an IPv6 literal may carry a
scope id after a percent sign (any non-empty text without a further
percent sign).  `str(ip)` normalisation is not modelled; every literal
appearing in a verified statement is already canonical. -/

/-- Valid IPv4 octet text: 1-3 ASCII digits, no leading zero, value below 256. -/
def isIPv4Octet (cs : List Char) : Bool :=
  pyIsDigitStr cs && cs.length ≤ 3 &&
    (cs.length == 1 || cs.head? != some '0') && natOfDigits cs ≤ 255

/-- Valid IPv4 dotted-quad literal. -/
def isIPv4Chars (cs : List Char) : Bool :=
  let parts := splitOnChar '.' cs
  parts.length == 4 && parts.all isIPv4Octet

/-- Octets of an IPv4 literal, when valid. -/
def ipv4Octets? (cs : List Char) : Option (Nat × Nat × Nat × Nat) :=
  if isIPv4Chars cs then
    match splitOnChar '.' cs with
    | [a, b, c, d] => some (natOfDigits a, natOfDigits b, natOfDigits c, natOfDigits d)
    | _ => none
  else none

/-- Valid IPv6 hextet text: 1-4 hexadecimal digits. -/
def isHextet (cs : List Char) : Bool :=
  !cs.isEmpty && cs.length ≤ 4 &&
    cs.all fun c => c.isDigit || ('a' ≤ c && c ≤ 'f') || ('A' ≤ c && c ≤ 'F')

/-- Valid IPv6 literal without a scope id, following the CPython
`_ip_int_from_string` algorithm (split on colons, at most one `::` run,
optional embedded IPv4 tail counted as two hextets). -/
def isIPv6Chars (cs : List Char) : Bool :=
  let parts0 := splitOnChar ':' cs
  if parts0.length < 3 then false
  else
    let lastPart := parts0.getLastD []
    let withTail :=
      if lastPart.any (· == '.') then
        if isIPv4Chars lastPart then some (parts0.dropLast ++ [['0'], ['0']]) else none
      else some parts0
    match withTail with
    | none => false
    | some parts =>
      let n := parts.length
      if n > 9 then false
      else
        let innerEmpties :=
          (List.range n).filter fun i =>
            decide (0 < i) && decide (i < n - 1) && (parts.getD i [' ']).isEmpty
        match innerEmpties with
        | [] =>
          n == 8 && !(parts.getD 0 []).isEmpty && !(parts.getLastD []).isEmpty &&
            parts.all isHextet
        | [i] =>
          let hi0 := i
          let lo0 := n - i - 1
          let headEmpty := (parts.getD 0 [' ']).isEmpty
          let lastEmpty := (parts.getLastD [' ']).isEmpty
          let hi := if headEmpty then hi0 - 1 else hi0
          let lo := if lastEmpty then lo0 - 1 else lo0
          if headEmpty && hi0 - 1 ≠ 0 then false
          else if lastEmpty && lo0 - 1 ≠ 0 then false
          else if 8 - (hi + lo) < 1 || hi + lo > 7 then false
          else (parts.take hi).all isHextet && (parts.drop (n - lo)).all isHextet
        | _ => false

/-- Parsed address shape: IPv4 octets, or an IPv6 literal (scope id allowed). -/
inductive IpAddr where
  | v4 (a b c d : Nat)
  | v6
deriving DecidableEq, Repr

/-- Model of `ipaddress.ip_address(s)`: IPv4 first, then IPv6 with an optional
non-empty scope id after a single percent sign. -/
def parseIpAddr? (s : String) : Option IpAddr :=
  let cs := s.data
  match ipv4Octets? cs with
  | some (a, b, c, d) => some (.v4 a b c d)
  | none =>
    match splitOnChar '%' cs with
    | [addr] => if isIPv6Chars addr then some .v6 else none
    | [addr, scope] =>
      if !scope.isEmpty && isIPv6Chars addr then some .v6 else none
    | _ => none

/-- Predicate used by `ScanService._is_ip_address`. -/
def is_ip_address (s : String) : Bool := (parseIpAddr? s).isSome

/-- Model of `ipaddress.ip_network(s, strict=False)`, returning the address
count of the network.  Only prefix-length suffixes are modelled (dotted
netmask suffixes are accepted by CPython but are exercised by no verified
statement). -/
def ipNetworkNumAddresses? (s : String) : Option Nat :=
  match splitOnChar '/' s.data with
  | [addr] =>
    if isIPv4Chars addr then some 1
    else if isIPv6Chars addr then some 1
    else none
  | [addr, pre] =>
    if isIPv4Chars addr then
      if pyIsDigitStr pre && natOfDigits pre ≤ 32 then
        some (2 ^ (32 - natOfDigits pre))
      else none
    else if isIPv6Chars addr then
      if pyIsDigitStr pre && natOfDigits pre ≤ 128 then
        some (2 ^ (128 - natOfDigits pre))
      else none
    else none
  | _ => none

/-! ## Target validation (`ScanService.validate_targets` and helpers) -/

/-- Primitive regex step: consume a literal prefix. -/
def matchLit (lit : List Char) (cs : List Char) : Option (List Char) :=
  if List.isPrefixOf lit cs then some (cs.drop lit.length) else none

/-- Primitive regex step: consume one or more decimal digits (the patterns
below never need backtracking, since a digit run cannot contain a dot). -/
def matchDigits1 (cs : List Char) : Option (List Char) :=
  let run := cs.takeWhile Char.isDigit
  if run.isEmpty then none else some (cs.drop run.length)

/-- Sequence two match steps. -/
def matchSeq (f g : List Char → Option (List Char)) (cs : List Char) : Option (List Char) :=
  (f cs).bind g

/-- Model of `re.search(p, s)`: try the matcher at every start position. -/
def reSearch (p : List Char → Option (List Char)) : List Char → Bool
  | [] => (p []).isSome
  | c :: rest => (p (c :: rest)).isSome || reSearch p rest

/-- Matcher for the multicast pattern `224\.\d+\.\d+\.\d+`. -/
def multicastPat : List Char → Option (List Char) :=
  matchSeq (matchLit "224.".data)
    (matchSeq matchDigits1 (matchSeq (matchLit ".".data)
      (matchSeq matchDigits1 (matchSeq (matchLit ".".data) matchDigits1))))

/-- Matcher for the link-local pattern `169\.254\.\d+\.\d+`. -/
def linkLocalPat : List Char → Option (List Char) :=
  matchSeq (matchLit "169.254.".data)
    (matchSeq matchDigits1 (matchSeq (matchLit ".".data) matchDigits1))

/-- The service forbidden patterns (`ScanService.FORBIDDEN_PATTERNS`), in
order, paired with matchers; the first component is the regex source text
used in the rejection message. -/
def forbiddenPatterns : List (String × (List Char → Option (List Char))) :=
  [("0\\.0\\.0\\.0", matchLit "0.0.0.0".data),
   ("255\\.255\\.255\\.255", matchLit "255.255.255.255".data),
   ("224\\.\\d+\\.\\d+\\.\\d+", multicastPat),
   ("169\\.254\\.\\d+\\.\\d+", linkLocalPat)]

/-- First forbidden pattern whose `re.search` hits, if any. -/
def forbiddenPatternHit (s : String) : Option String :=
  (forbiddenPatterns.find? fun pr => reSearch pr.2 s.data).map Prod.fst

/-- Outcome record of target validation (`schemas.ScanTargetValidation`). -/
structure ScanTargetValidation where
  target : String
  is_valid : Bool
  message : String
  resolved_ips : List String
  warnings : List String
deriving DecidableEq, Repr

/-- Model of `ScanService._is_hostname`: length bound, charset
`[a-zA-Z0-9.-]`, and no leading or trailing dot or hyphen. -/
def is_hostname (s : String) : Bool :=
  let cs := s.data
  !cs.isEmpty && cs.length ≤ 253 &&
    cs.all (fun c => c.isAlphanum || c == '.' || c == '-') &&
    cs.head? != some '.' && cs.getLast? != some '.' &&
    cs.head? != some '-' && cs.getLast? != some '-'

/-- Model of `ScanService._validate_ip_range` (for inputs such as
`192.168.1.1-10`): exactly one hyphen, base parses as an IP address, end
token is a decimal of value at most 255, and the end strictly exceeds the
last dot-separated component of the base with a span of at most 254. -/
def validate_ip_range (target : String) : Bool :=
  let cs := target.data
  if (cs.filter (· == '-')).length ≠ 1 then false
  else
    match splitOnChar '-' cs with
    | [base, endPart] =>
      if (parseIpAddr? ⟨base⟩).isNone then false
      else if !pyIsDigitStr endPart || natOfDigits endPart > 255 then false
      else
        match pyIntOfStr? ⟨(splitOnChar '.' base).getLastD []⟩ with
        | none => false
        | some startLast =>
          let endLast : Int := (natOfDigits endPart : Int)
          decide (startLast < endLast) && decide (endLast - startLast ≤ 254)
    | _ => false

/-- RFC 1918 and loopback membership for an accepted IPv4 literal
(`ScanService.PRIVATE_RANGES`); IPv6 addresses are never members of the
IPv4 networks, matching CPython `in` on mixed versions. -/
def inPrivateRanges : IpAddr → Bool
  | .v4 a b _ _ =>
    a == 10 || (a == 172 && 16 ≤ b && b ≤ 31) || (a == 192 && b == 168) || a == 127
  | .v6 => false

/-- Example host addresses listed for an accepted IPv4 CIDR token: the first
three host addresses of the network, rendered dotted-decimal (the source
iterates `network.hosts()` and keeps at most three).  Networks of prefix
length 31 or 32 start at the network address itself; IPv6 examples are not
modelled (no verified statement evaluates them). -/
def cidrExampleIps (s : String) : List String :=
  match splitOnChar '/' s.data with
  | [addr, pre] =>
    match ipv4Octets? addr with
    | some (a, b, c, d) =>
      if pyIsDigitStr pre && natOfDigits pre ≤ 32 then
        let p := natOfDigits pre
        let v := ((a * 256 + b) * 256 + c) * 256 + d
        let size := 2 ^ (32 - p)
        let base := v - v % size
        let first := if p ≥ 31 then base else base + 1
        let avail := if p ≥ 31 then size else size - 2
        ((List.range (min avail 3)).map fun i =>
          let x := first + i
          toString (x / 2 ^ 24 % 256) ++ "." ++ toString (x / 2 ^ 16 % 256) ++ "." ++
            toString (x / 2 ^ 8 % 256) ++ "." ++ toString (x % 256))
      else []
    | none => []
  | _ => []

/-- DNS resolution oracle standing for `socket.gethostbyname`: `none` models
`socket.gaierror`.  Validity of the result never depends on the oracle. -/
abbrev DnsOracle := String → Option String

/-- Per-token classification loop of `ScanService.validate_targets`,
threading the accumulated resolved addresses and warnings and returning
early on the first invalid token. -/
def validateTokensLoop (dns : DnsOracle) (targets : String) :
    List String → List String → List String → ScanTargetValidation
  | [], resolved, warns =>
    ⟨targets, true, "Targets are valid", resolved, warns⟩
  | t :: rest, resolved, warns =>
    match parseIpAddr? t with
    | some ip =>
      let warns2 :=
        if inPrivateRanges ip then warns
        else warns ++ ["Public IP address detected: " ++ t]
      validateTokensLoop dns targets rest (resolved ++ [t]) warns2
    | none =>
      if t.data.any (· == '/') then
        match ipNetworkNumAddresses? t with
        | some n =>
          if n > 1024 then
            ⟨targets, false,
              "Network too large: " ++ t ++ " (" ++ toString n ++ " addresses)",
              [], warns⟩
          else validateTokensLoop dns targets rest (resolved ++ cidrExampleIps t) warns
        | none =>
          -- `ip_network` raised `ValueError`, caught by the surrounding handler
          ⟨targets, false, "Invalid target: " ++ t, [], warns⟩
      else if is_hostname t then
        match dns t with
        | some ip => validateTokensLoop dns targets rest (resolved ++ [ip]) warns
        | none =>
          validateTokensLoop dns targets rest resolved
            (warns ++ ["Could not resolve hostname: " ++ t])
      else if t.data.any (· == '-') && t.data.any (· == '.') then
        if !validate_ip_range t then
          ⟨targets, false, "Invalid IP range format: " ++ t, [], warns⟩
        else
          validateTokensLoop dns targets rest resolved
            (warns ++ ["IP range format: " ++ t])
      else
        ⟨targets, false, "Unrecognized target format: " ++ t, [], warns⟩

/-- Model of `ScanService.validate_targets`: strip the raw specification,
reject on a forbidden pattern, then classify each comma- or
whitespace-separated token in order. -/
def validate_targets (dns : DnsOracle) (targets0 : String) : ScanTargetValidation :=
  let targets := pyStrip targets0
  match forbiddenPatternHit targets with
  | some pat =>
    ⟨targets, false, "Forbidden target pattern detected: " ++ pat, [], []⟩
  | none => validateTokensLoop dns targets (pyTokens targets) [] []

/-! ## Safe process invocation (`utils/nmap_runner.py`) -/

/-- Scan profiles (`models.ScanProfile` and `nmap_runner.ScanProfile` share
these five values). -/
inductive ScanProfile where
  | quick
  | full
  | service_detection
  | vuln_scan
  | udp_scan
deriving DecidableEq, Repr

/-- Shell metacharacters rejected by the runner regex `[;&|`$(){}<>]`
(the backtick and braces are written by code point). -/
def shellMetaChars : List Char :=
  [';', '&', '|', Char.ofNat 96, '$', '(', ')', Char.ofNat 123, Char.ofNat 125, '<', '>']

/-- Model of `re.search(r"[;&|`$(){}<>]", s)`. -/
def containsShellMeta (s : String) : Bool :=
  s.data.any fun c => shellMetaChars.contains c

/-- Model of `NmapRunner._is_valid_hostname`: length bound, charset, and
per-label checks (non-empty, at most 63 characters, no edge hyphens). -/
def runner_is_valid_hostname (s : String) : Bool :=
  let cs := s.data
  cs.length ≤ 253 && !cs.isEmpty &&
    cs.all (fun c => c.isAlphanum || c == '.' || c == '-') &&
    (splitOnChar '.' cs).all fun part =>
      !part.isEmpty && part.length ≤ 63 &&
        part.head? != some '-' && part.getLast? != some '-'

/-- Model of the `FORBIDDEN_TARGETS` screening inside
`NmapRunner.validate_target`: exact broadcast and default-route addresses,
plus the multicast `224.0.0.0/4` and reserved `240.0.0.0/4` ranges (an IPv6
address matches none of them). -/
def runnerForbidden (ip : IpAddr) (target : String) : Option String :=
  match ip with
  | .v4 a b c d =>
    -- iteration order of FORBIDDEN_TARGETS: the exact entries precede the ranges
    if a == 255 && b == 255 && c == 255 && d == 255 then
      some ("Target " ++ target ++ " is forbidden")
    else if a == 0 && b == 0 && c == 0 && d == 0 then
      some ("Target " ++ target ++ " is forbidden")
    else if 224 ≤ a && a ≤ 239 then
      some ("Target " ++ target ++ " is in forbidden range 224.0.0.0/4")
    else if 240 ≤ a then
      some ("Target " ++ target ++ " is in forbidden range 240.0.0.0/4")
    else none
  | .v6 => none

/-- Model of `NmapRunner.validate_target`: strip, reject empties, reject
shell metacharacters, then accept IP literals outside the forbidden ranges
or well-formed hostnames. -/
def validate_target (target0 : String) : Bool × String :=
  let target := pyStrip target0
  if target.data.isEmpty then (false, "Target cannot be empty")
  else if containsShellMeta target then (false, "Target contains forbidden characters")
  else
    match parseIpAddr? target with
    | some ip =>
      match runnerForbidden ip target with
      | some msg => (false, msg)
      | none => (true, "Valid IP address")
    | none =>
      if runner_is_valid_hostname target then (true, "Valid hostname")
      else (false, "Invalid hostname format")

/-- Fixed argument template per profile (`NmapRunner.SCAN_PROFILES`). -/
def profileArgs : ScanProfile → List String
  | .quick => ["-sT", "-Pn", "-p1-1024", "-T3", "--min-rate", "100"]
  | .full => ["-sT", "-Pn", "-p-", "-T4"]
  | .service_detection => ["-sT", "-sV", "-Pn", "-p1-65535", "-T4"]
  | .vuln_scan => ["-sT", "-sV", "-sC", "-Pn", "-p1-1024", "-T3", "--script", "vuln"]
  | .udp_scan => ["-sU", "-Pn", "-p53,67,68,69,123,161,162,500,514,1434", "-T4"]

/-- Timeout ceiling per profile (`NmapRunner.SCAN_PROFILES`). -/
def profileTimeout : ScanProfile → Nat
  | .quick => 300
  | .full => 1800
  | .service_detection => 2400
  | .vuln_scan => 1800
  | .udp_scan => 900

/-- Model of `NmapRunner.get_scan_command`: the profile template with the
target appended after `-oX -`. -/
def get_scan_command (nmapPath : String) (target : String) (profile : ScanProfile) :
    List String :=
  nmapPath :: (profileArgs profile ++ ["-oX", "-", target])

/-- Outcome of `NmapRunner.execute_scan` up to the subprocess boundary:
either a typed refusal, or the command line handed to `subprocess.run`. -/
inductive ExecOutcome where
  | nmapNotFound
  | invalidTarget (msg : String)
  | spawned (command : List String)
deriving DecidableEq, Repr

/-- Model of `NmapRunner.execute_scan` up to the point a process would be
spawned: the availability check and re-validation precede any spawn. -/
def execute_scan (available : Bool) (nmapPath : String) (target : String)
    (profile : ScanProfile) : ExecOutcome :=
  if !available then .nmapNotFound
  else
    match validate_target target with
    | (false, msg) => .invalidTarget ("Invalid target: " ++ msg)
    | (true, _) => .spawned (get_scan_command nmapPath target profile)

/-! ## Result parsing (`utils/nmap_parser.py`)

The XML tree handed back by `ElementTree.fromstring` is modelled by an
inductive tree; the external XML parser itself is a parameter of
`parse_xml`, failing exactly where `fromstring` raises. -/

/-- Element tree: tag, attributes, optional text, children. -/
inductive Xml where
  | elem (tag : String) (attrs : List (String × String)) (text : Option String)
      (children : List Xml)

/-- Tag of an element. -/
def Xml.tag : Xml → String
  | .elem t _ _ _ => t

/-- Attribute list of an element. -/
def Xml.attrs : Xml → List (String × String)
  | .elem _ a _ _ => a

/-- Text of an element. -/
def Xml.text : Xml → Option String
  | .elem _ _ t _ => t

/-- Children of an element. -/
def Xml.children : Xml → List Xml
  | .elem _ _ _ cs => cs

/-- Model of `elem.get(key)`. -/
def Xml.attr? (x : Xml) (key : String) : Option String :=
  (x.attrs.find? fun pr => pr.1 == key).map Prod.snd

/-- Model of `elem.get(key, default)`. -/
def Xml.attrD (x : Xml) (key dflt : String) : String :=
  (x.attr? key).getD dflt

/-- Model of `elem.find(tag)` (first direct child with the tag). -/
def Xml.findChild (x : Xml) (tag : String) : Option Xml :=
  x.children.find? fun c => c.tag == tag

/-- Model of `elem.findall(tag)` (direct children with the tag, in order). -/
def Xml.findChildren (x : Xml) (tag : String) : List Xml :=
  x.children.filter fun c => c.tag == tag

mutual
/-- Proper descendants of an element, in document (preorder) order. -/
def xmlDescendants : Xml → List Xml
  | .elem _ _ _ cs => xmlDescList cs
/-- Descendants of a forest, in document order. -/
def xmlDescList : List Xml → List Xml
  | [] => []
  | c :: rest => c :: (xmlDescendants c ++ xmlDescList rest)
end

/-- Model of `elem.findall(".//tag")`. -/
def Xml.findAllDesc (x : Xml) (tag : String) : List Xml :=
  (xmlDescendants x).filter fun c => c.tag == tag

/-- Model of `elem.find(".//tag")`. -/
def Xml.findDesc (x : Xml) (tag : String) : Option Xml :=
  (xmlDescendants x).find? fun c => c.tag == tag

/-- Mirror of the `HostInfo` dataclass. -/
structure HostInfo where
  ip : Option String := none
  hostname : Option String := none
  mac_address : Option String := none
  vendor : Option String := none
  status : String := "unknown"
  reason : Option String := none
deriving DecidableEq, Repr

/-- Mirror of the `PortInfo` dataclass (all three of `port`, `protocol` and
`state` are required constructor arguments in the source). -/
structure PortInfo where
  port : Int
  protocol : String
  state : String
  service : Option String := none
  version : Option String := none
  product : Option String := none
  extrainfo : Option String := none
  reason : Option String := none
  confidence : Option Int := none
deriving DecidableEq, Repr

/-- Mirror of the `ScriptResult` dataclass. -/
structure ScriptResult where
  id : String
  output : String
  elements : Option (List (String × String)) := none
deriving DecidableEq, Repr

/-- One OS class candidate from `_parse_os_detection`. -/
structure OsClassInfo where
  type : String
  vendor : String
  osfamily : String
  osgen : String
  accuracy : String
deriving DecidableEq, Repr

/-- One OS match candidate from `_parse_os_detection`. -/
structure OsMatchInfo where
  name : String
  accuracy : String
  line : String
  os_classes : List OsClassInfo := []
deriving DecidableEq, Repr

/-- Mirror of the `ScanSummary` dataclass. -/
structure ScanSummary where
  total_hosts : Nat := 0
  hosts_up : Nat := 0
  hosts_down : Nat := 0
  total_ports_scanned : Nat := 0
  open_ports : Nat := 0
  closed_ports : Nat := 0
  filtered_ports : Nat := 0
  services_detected : List String := []
  vulnerabilities_found : Nat := 0
  risk_score : Rat := 0
deriving DecidableEq, Repr

/-- One parsed host (the per-host dict built by `_parse_host`): identity,
ports, host scripts and OS matches (`[]` models the absent `matches` key). -/
structure HostData where
  host_info : HostInfo
  ports : List PortInfo := []
  scripts : List ScriptResult := []
  os_detection : List OsMatchInfo := []
deriving DecidableEq, Repr

/-- Mirror of the `ParsedNmapResult` dataclass; `scan_info` holds the
metadata dictionary as string/integer entries. -/
inductive PyVal where
  | s (v : String)
  | i (v : Int)
deriving DecidableEq, Repr

/-- Insertion-ordered dictionary update (Python dict assignment). -/
def dictSet (d : List (String × PyVal)) (key : String) (v : PyVal) :
    List (String × PyVal) :=
  if d.any (fun pr => pr.1 == key) then
    d.map fun pr => if pr.1 == key then (key, v) else pr
  else d ++ [(key, v)]

/-- Fold a batch of dictionary entries (Python `dict.update`). -/
def dictSets (d : List (String × PyVal)) (kvs : List (String × PyVal)) :
    List (String × PyVal) :=
  kvs.foldl (fun acc kv => dictSet acc kv.1 kv.2) d

/-- Full parse result (`ParsedNmapResult`). -/
structure ParsedNmapResult where
  scan_info : List (String × PyVal)
  hosts : List HostData
  summary : ScanSummary
  raw_xml : String
  parse_errors : List String
deriving DecidableEq, Repr

/-- Model of `_parse_host_info`: status block, address entries (later
entries overwrite earlier ones of the same type), then the first hostname. -/
def parse_host_info (host : Xml) : HostInfo :=
  let hi : HostInfo := {}
  let hi :=
    match host.findChild "status" with
    | some st => { hi with status := st.attrD "state" "unknown", reason := some (st.attrD "reason" "") }
    | none => hi
  let hi :=
    (host.findChildren "address").foldl
      (fun acc addr =>
        let t := addr.attrD "addrtype" ""
        let a := addr.attrD "addr" ""
        if t == "ipv4" then { acc with ip := some a }
        else if t == "mac" then
          { acc with mac_address := some a, vendor := some (addr.attrD "vendor" "") }
        else acc)
      hi
  match host.findChild "hostnames" with
  | some hns =>
    match hns.findChild "hostname" with
    | some hn => { hi with hostname := some (hn.attrD "name" "") }
    | none => hi
  | none => hi

/-- Model of `_parse_port`.  The source first evaluates
`int(port_elem.get("portid", 0))` (which can raise `ValueError`), then calls
`PortInfo(port=..., protocol=...)` without the required `state` argument, so
every call raises `TypeError` before the state and service blocks run; the
remainder of the source function is unreachable. -/
def parse_port (port : Xml) : Except String PortInfo := do
  let _portNum ←
    match port.attr? "portid" with
    | none => pure (0 : Int)
    | some s =>
      match pyIntOfStr? s with
      | some n => pure n
      | none =>
        throw ("invalid literal for int() with base 10: " ++ s)
  throw "PortInfo.__init__() missing 1 required positional argument: state"

/-- Model of `_parse_script`: id and output attributes, plus a dictionary of
descendant `elem` entries with non-empty keys (value is the element text or
the empty string); the dictionary is attached only when non-empty. -/
def parse_script (script : Xml) : ScriptResult :=
  let elems :=
    (script.findAllDesc "elem").foldl
      (fun acc e =>
        let key := e.attrD "key" ""
        if key == "" then acc
        else
          let v := (e.text).getD ""
          if acc.any (fun pr => pr.1 == key) then
            acc.map fun pr => if pr.1 == key then (key, v) else pr
          else acc ++ [(key, v)])
      []
  { id := script.attrD "id" "", output := script.attrD "output" "",
    elements := if elems.isEmpty then none else some elems }

/-- Model of `_parse_os_detection`: every `osmatch` child with its `osclass`
entries. -/
def parse_os_detection (os : Xml) : List OsMatchInfo :=
  (os.findChildren "osmatch").map fun m =>
    { name := m.attrD "name" "", accuracy := m.attrD "accuracy" "",
      line := m.attrD "line" "",
      os_classes :=
        (m.findChildren "osclass").map fun c =>
          { type := c.attrD "type" "", vendor := c.attrD "vendor" "",
            osfamily := c.attrD "osfamily" "", osgen := c.attrD "osgen" "",
            accuracy := c.attrD "accuracy" "" } }

/-- Model of `_parse_host`: host info, then ports (first failure aborts the
host), then host scripts and OS detection. -/
def parse_host (host : Xml) : Except String HostData := do
  let hi := parse_host_info host
  let ports ←
    match host.findChild "ports" with
    | some pe => (pe.findChildren "port").mapM parse_port
    | none => pure []
  let scripts :=
    match host.findChild "hostscript" with
    | some hs => (hs.findChildren "script").map parse_script
    | none => []
  let osd :=
    match host.findChild "os" with
    | some os => parse_os_detection os
    | none => []
  pure { host_info := hi, ports := ports, scripts := scripts, os_detection := osd }

/-- Model of `_parse_scan_info`: sequential dictionary updates; a failing
integer conversion in the `hosts` block abandons that block but keeps the
entries written before it. -/
def parse_scan_info (root : Xml) : List (String × PyVal) :=
  let d := dictSets []
    [("nmap_version", .s (root.attrD "version" "")),
     ("xml_version", .s (root.attrD "xmloutputversion" "")),
     ("args", .s (root.attrD "args" "")),
     ("start_time", .s (root.attrD "start" "")),
     ("start_str", .s (root.attrD "startstr" ""))]
  let d :=
    match root.findDesc "scaninfo" with
    | some si =>
      dictSets d
        [("scan_type", .s (si.attrD "type" "")),
         ("protocol", .s (si.attrD "protocol" "")),
         ("num_services", .s (si.attrD "numservices" "")),
         ("services", .s (si.attrD "services" ""))]
    | none => d
  match root.findDesc "runstats" with
  | none => d
  | some rs =>
    let d :=
      match rs.findChild "finished" with
      | some f =>
        dictSets d
          [("end_time", .s (f.attrD "time" "")),
           ("end_str", .s (f.attrD "timestr" "")),
           ("elapsed", .s (f.attrD "elapsed" "")),
           ("summary", .s (f.attrD "summary" ""))]
      | none => d
    match rs.findChild "hosts" with
    | none => d
    | some h =>
      -- `int(h.get(k, 0))`: an absent attribute is the integer 0 already
      let conv : String → Option Int := fun k =>
        match h.attr? k with
        | none => some 0
        | some s => pyIntOfStr? s
      match conv "up", conv "down", conv "total" with
      | some u, some dn, some tot =>
        dictSets d [("hosts_up", .i u), ("hosts_down", .i dn), ("hosts_total", .i tot)]
      | _, _, _ => d

/-- The `VULNERABLE_SERVICES` list of the parser. -/
def VULNERABLE_SERVICES : List String :=
  ["ftp", "telnet", "rsh", "rlogin", "finger", "netbios-ssn",
   "microsoft-ds", "msrpc", "ms-wbt-server"]

/-- The `HIGH_RISK_PORTS` table (port numbers with display names). -/
def HIGH_RISK_PORTS : List (Int × String) :=
  [(21, "FTP"), (22, "SSH"), (23, "Telnet"), (25, "SMTP"), (53, "DNS"),
   (80, "HTTP"), (110, "POP3"), (135, "RPC"), (139, "NetBIOS"), (143, "IMAP"),
   (389, "LDAP"), (443, "HTTPS"), (445, "SMB"), (993, "IMAPS"), (995, "POP3S"),
   (1433, "MSSQL"), (1521, "Oracle"), (3306, "MySQL"), (3389, "RDP"),
   (5432, "PostgreSQL"), (5900, "VNC"), (6379, "Redis"), (27017, "MongoDB")]

/-- Accumulator threaded through the `_generate_summary` loops. -/
structure SummAcc where
  summary : ScanSummary
  all_services : List String
  vulnerability_indicators : Nat
  risk_factors : List String
deriving Repr

/-- Set insertion preserving first-seen order (Python `set.add`, with the
final `list(...)` read back in insertion order). -/
def setAdd (l : List String) (s : String) : List String :=
  if l.contains s then l else l ++ [s]

/-- Port loop body of `_generate_summary`. -/
def summaryPortStep (acc : SummAcc) (p : PortInfo) : SummAcc :=
  let s := acc.summary
  let s := { s with total_ports_scanned := s.total_ports_scanned + 1 }
  let s :=
    if p.state == "open" then { s with open_ports := s.open_ports + 1 }
    else if p.state == "closed" then { s with closed_ports := s.closed_ports + 1 }
    else if p.state == "filtered" then { s with filtered_ports := s.filtered_ports + 1 }
    else s
  let acc := { acc with summary := s }
  let acc :=
    match p.service with
    | some sv =>
      if sv == "" then acc
      else
        let acc := { acc with all_services := setAdd acc.all_services sv }
        if VULNERABLE_SERVICES.contains (pyLower sv) then
          { acc with vulnerability_indicators := acc.vulnerability_indicators + 1,
                     risk_factors := acc.risk_factors ++ ["Vulnerable service: " ++ sv] }
        else acc
    | none => acc
  match (HIGH_RISK_PORTS.find? fun pr => pr.1 == p.port) with
  | some pr =>
    if p.state == "open" then
      { acc with risk_factors :=
          acc.risk_factors ++
            ["High-risk port open: " ++ toString p.port ++ " (" ++ pr.2 ++ ")"] }
    else acc
  | none => acc

/-- Script loop body of `_generate_summary`: the `vuln` substring test is
case-sensitive in the source, only the `cve` test lowercases the id. -/
def summaryScriptStep (acc : SummAcc) (sc : ScriptResult) : SummAcc :=
  if strContains sc.id "vuln" || strContains (pyLower sc.id) "cve" then
    { acc with vulnerability_indicators := acc.vulnerability_indicators + 1,
               risk_factors := acc.risk_factors ++ ["Vulnerability script: " ++ sc.id] }
  else acc

/-- Host loop body of `_generate_summary`. -/
def summaryHostStep (acc : SummAcc) (h : HostData) : SummAcc :=
  let s := acc.summary
  let s :=
    if h.host_info.status == "up" then { s with hosts_up := s.hosts_up + 1 }
    else { s with hosts_down := s.hosts_down + 1 }
  let acc := { acc with summary := s }
  let acc := h.ports.foldl summaryPortStep acc
  h.scripts.foldl summaryScriptStep acc

/-- Model of `_calculate_risk_score`: four saturating components, clamped to
the interval from 0 to 10. -/
def calculate_risk_score (s : ScanSummary) (risk_factors : List String) : Rat :=
  let port_score : Rat :=
    if s.open_ports > 0 then min ((s.open_ports : Rat) / 20) 1 * 3 else 0
  let vuln_score : Rat :=
    if s.vulnerabilities_found > 0 then min ((s.vulnerabilities_found : Rat) / 5) 1 * 4 else 0
  let service_score : Rat :=
    if s.services_detected.length > 0 then
      min ((s.services_detected.length : Rat) / 10) 1 * 2
    else 0
  let rf_score : Rat := min ((risk_factors.length : Rat) / 10) 1 * 1
  min (max (port_score + vuln_score + service_score + rf_score) 0) 10

/-- Model of `_generate_summary`. -/
def generate_summary (hosts : List HostData) : ScanSummary :=
  let acc0 : SummAcc :=
    { summary := { total_hosts := hosts.length }, all_services := [],
      vulnerability_indicators := 0, risk_factors := [] }
  let acc := hosts.foldl summaryHostStep acc0
  let s := { acc.summary with
               services_detected := acc.all_services,
               vulnerabilities_found := acc.vulnerability_indicators }
  { s with risk_score := calculate_risk_score s acc.risk_factors }

/-- Failure of the external XML parser: `ET.ParseError`, or any other
exception raised while producing the tree. -/
inductive XmlFailure where
  | parseError (msg : String)
  | other (msg : String)
deriving DecidableEq, Repr

/-- Message recorded for a failed parse, matching the two except branches. -/
def xmlFailureMessage : XmlFailure → String
  | .parseError msg => "XML parsing error: " ++ msg
  | .other msg => "Unexpected parsing error: " ++ msg

/-- The external parser boundary (`ET.fromstring`). -/
abbrev Fromstring := String → Except XmlFailure Xml

/-- Model of `NmapXMLParser.parse_xml`: a structural failure yields the
zeroed result with one recorded error; otherwise hosts are parsed
individually, per-host failures are recorded without aborting the batch,
and the summary is generated over the hosts that parsed. -/
def parse_xml (fromstring : Fromstring) (xml_content : String) : ParsedNmapResult :=
  match fromstring xml_content with
  | .error e =>
    { scan_info := [], hosts := [], summary := {}, raw_xml := xml_content,
      parse_errors := [xmlFailureMessage e] }
  | .ok root =>
    let scan_info := parse_scan_info root
    let step := fun (acc : List HostData × List String) (he : Xml) =>
      match parse_host he with
      | .ok hd => (acc.1 ++ [hd], acc.2)
      | .error msg => (acc.1, acc.2 ++ ["Error parsing host: " ++ msg])
    let (hosts, errs) := (root.findAllDesc "host").foldl step ([], [])
    { scan_info := scan_info, hosts := hosts, summary := generate_summary hosts,
      raw_xml := xml_content, parse_errors := errs }

/-! ## Risk scoring engine (`utils/risk_logic.py`) -/

/-! ## Scan lifecycle (`ScanService` against the document store)

Timestamps are seconds as rationals; `now` is passed explicitly where the
source reads the wall clock.  The Firestore collaborator becomes two
association lists keyed by document id, with the last-writer-wins updates
of the source modelled as pure record rewrites. -/

/-- Scan states (`models.ScanStatus`). -/
inductive ScanStatus where
  | pending
  | running
  | completed
  | failed
  | cancelled
deriving DecidableEq, Repr

/-- Terminal states of the lifecycle state machine. -/
def ScanStatus.isTerminal : ScanStatus → Bool
  | .completed => true
  | .failed => true
  | .cancelled => true
  | _ => false

/-- Summary block written by the background completion update
(the `scan_results` dictionary). -/
structure ScanResultsInfo where
  hosts_scanned : Nat
  hosts_up : Nat
  total_ports_found : Nat
  open_ports : Nat
deriving DecidableEq, Repr

/-- Persisted scan document: the `models.Scan` fields touched by the
verified operations. -/
structure ScanDoc where
  user_id : String
  targets : String
  scan_profile : ScanProfile
  status : ScanStatus
  created_at : Option Rat := none
  started_at : Option Rat := none
  completed_at : Option Rat := none
  updated_at : Option Rat := none
  error_message : Option String := none
  hosts_found : Nat := 0
  vulnerabilities_found : Nat := 0
  risk_score : Rat := 0
  scan_results : Option ScanResultsInfo := none
deriving DecidableEq, Repr

/-- Persisted per-host document (`models.NmapHost`, reduced to the linkage
field the verified operations read). -/
structure HostDoc where
  scan_id : String
deriving DecidableEq, Repr

/-- The document store: the `scans` and `nmap_hosts` collections. -/
structure Db where
  scans : List (String × ScanDoc) := []
  nmap_hosts : List (String × HostDoc) := []
deriving DecidableEq, Repr

/-- Model of `get_document("scans", id)`. -/
def Db.getScanDoc (db : Db) (id : String) : Option ScanDoc :=
  (db.scans.find? fun pr => pr.1 == id).map Prod.snd

/-- Model of `update_document("scans", id, fields)` for a partial update `f`. -/
def Db.updateScanDoc (db : Db) (id : String) (f : ScanDoc → ScanDoc) : Db :=
  { db with scans := db.scans.map fun pr => if pr.1 == id then (pr.1, f pr.2) else pr }

/-- Model of `delete_document("scans", id)`. -/
def Db.deleteScanDoc (db : Db) (id : String) : Db :=
  { db with scans := db.scans.filter fun pr => pr.1 != id }

/-- Deletion of every host document whose `scan_id` equals the given id
(the query-and-delete loop of `delete_scan`). -/
def Db.deleteHostsOfScan (db : Db) (id : String) : Db :=
  { db with nmap_hosts := db.nmap_hosts.filter fun pr => pr.2.scan_id != id }

/-- Model of `ScanService.get_scan`: fetch, then the ownership check; a
mismatch returns `none` exactly like an absent document. -/
def get_scan (db : Db) (scan_id user_id : String) : Option ScanDoc :=
  match db.getScanDoc scan_id with
  | none => none
  | some doc => if doc.user_id != user_id then none else some doc

/-- Progress information returned by `get_scan_progress`. -/
structure ProgressInfo where
  scan_id : String
  status : ScanStatus
  progress : Int
  message : Option String
  started_at : Option Rat
  estimated_completion : Option Rat
deriving DecidableEq, Repr

/-- Expected scan duration per profile used by the progress estimate (a
table distinct from the runner timeouts). -/
def estimatedDuration : ScanProfile → Rat
  | .quick => 300
  | .full => 1800
  | .service_detection => 900
  | .vuln_scan => 3600
  | .udp_scan => 2400

/-- Python `int(...)` truncation toward zero on rationals. -/
def truncToInt (q : Rat) : Int :=
  if 0 ≤ q then q.floor else -((-q).floor)

/-- Model of `ScanService.get_scan_progress`: `none` when the scan is absent
or not owned; otherwise status-derived progress, refined for running scans
by the elapsed-time ratio capped at 90 while the elapsed time is below the
expected duration. -/
def get_scan_progress (now : Rat) (db : Db) (scan_id user_id : String) :
    Option ProgressInfo :=
  match get_scan db scan_id user_id with
  | none => none
  | some doc =>
    let base : ProgressInfo :=
      { scan_id := scan_id, status := doc.status, progress := 0, message := none,
        started_at := doc.started_at, estimated_completion := none }
    let info : ProgressInfo :=
      match doc.status with
      | .pending => { base with progress := 0, message := some "Scan is queued and waiting to start" }
      | .running => { base with progress := 50, message := some "Scan is currently running" }
      | .completed => { base with progress := 100, message := some "Scan completed successfully" }
      | .failed =>
        { base with progress := 0,
                    message := some ((doc.error_message).getD "Scan failed") }
      | .cancelled => { base with progress := 0, message := some "Scan was cancelled" }
    match doc.status, doc.started_at with
    | .running, some startedAt =>
      let elapsed := now - startedAt
      let est := estimatedDuration doc.scan_profile
      if elapsed < est then
        some { info with estimated_completion := some (startedAt + est),
                         progress := min 90 (truncToInt (elapsed / est * 100)) }
      else some info
    | _, _ => some info

/-- Model of `ScanService.cancel_scan`: `false` when absent, not owned or
already terminal; otherwise the cancellation fields are written and the call
reports success. -/
def cancel_scan (now : Rat) (db : Db) (scan_id user_id : String) : Bool × Db :=
  match get_scan db scan_id user_id with
  | none => (false, db)
  | some doc =>
    if doc.status == .completed || doc.status == .failed || doc.status == .cancelled then
      (false, db)
    else
      (true,
        db.updateScanDoc scan_id fun r =>
          { r with status := .cancelled, completed_at := some now,
                   updated_at := some now,
                   error_message := some "Scan cancelled by user" })

/-- Model of `ScanService.delete_scan`: `false` when absent or not owned;
otherwise a pending or running scan is first cancelled, then the scan
document and its host documents are removed. -/
def delete_scan (now : Rat) (db : Db) (scan_id user_id : String) : Bool × Db :=
  match get_scan db scan_id user_id with
  | none => (false, db)
  | some doc =>
    let db1 :=
      if doc.status == .pending || doc.status == .running then
        (cancel_scan now db scan_id user_id).2
      else db
    let db2 := db1.deleteScanDoc scan_id
    let db3 := db2.deleteHostsOfScan scan_id
    (true, db3)

/-- The RUNNING transition written at the top of
`_execute_scan_background`. -/
def bg_start_update (now : Rat) (r : ScanDoc) : ScanDoc :=
  { r with status := .running, started_at := some now, updated_at := some now }

/-- The risk score computed by `_execute_scan_background`
(`min(100.0, vulnerabilities_found * 10.0 + hosts_found * 5.0)`). -/
def bg_risk_score (vulnerabilities_found hosts_found : Nat) : Rat :=
  min 100 ((vulnerabilities_found : Rat) * 10 + (hosts_found : Rat) * 5)

/-- The completion update written at the end of
`_execute_scan_background`; it is applied to whatever document state is
current, without re-reading the status. -/
def bg_complete_update (now : Rat) (hosts_found vulnerabilities_found : Nat)
    (results : ScanResultsInfo) (r : ScanDoc) : ScanDoc :=
  { r with status := .completed, completed_at := some now, updated_at := some now,
           hosts_found := hosts_found,
           vulnerabilities_found := vulnerabilities_found,
           risk_score := bg_risk_score vulnerabilities_found hosts_found,
           scan_results := some results }

/-- The failure update written by the exception handler of
`_execute_scan_background`, likewise unconditional. -/
def bg_fail_update (now : Rat) (err : String) (r : ScanDoc) : ScanDoc :=
  { r with status := .failed, completed_at := some now, updated_at := some now,
           error_message := some err }

/-- Bound declared for `Scan.risk_score` in `models.py`
(`Field(default=0.0, ge=0.0, le=10.0)`). -/
def scanRiskScoreInBounds (x : Rat) : Prop := 0 ≤ x ∧ x ≤ 10

instance : DecidablePred scanRiskScoreInBounds := fun x =>
  inferInstanceAs (Decidable (0 ≤ x ∧ x ≤ 10))

/-- Discrete risk buckets (`models.RiskLevel`). -/
inductive RiskLevel where
  | critical
  | high
  | medium
  | low
  | info
deriving DecidableEq, Repr

/-- Model of `RiskCalculator.score_to_risk_level`. -/
def score_to_risk_level (score : Rat) : RiskLevel :=
  if 9 ≤ score then .critical
  else if 7 ≤ score then .high
  else if 4 ≤ score then .medium
  else if 1 ≤ score then .low
  else .info

/-! ## Fixtures and claim-side definitions -/

/-- DNS oracle on which every hostname resolution fails (validation outcomes
never depend on the oracle). -/
def dnsNone : DnsOracle := fun _ => none

/-- A freshly created scan document (owner `alice`). -/
def demoPendingDoc : ScanDoc :=
  { user_id := "alice", targets := "10.0.0.5", scan_profile := .quick,
    status := .pending, created_at := some 0, updated_at := some 0 }

/-- A store holding exactly the pending scan `scan-1`. -/
def demoDb0 : Db := { scans := [("scan-1", demoPendingDoc)] }

/-- The store after the owner cancels `scan-1` at time 5. -/
def demoDbCancelled : Db := (cancel_scan 5 demoDb0 "scan-1" "alice").2

/-- Summary block of a run that found one host with one open port. -/
def demoResults : ScanResultsInfo :=
  { hosts_scanned := 1, hosts_up := 1, total_ports_found := 1, open_ports := 1 }

/-- The store after the background completion write lands at time 9 on the
already cancelled scan. -/
def demoDbOverwritten : Db :=
  demoDbCancelled.updateScanDoc "scan-1" (bg_complete_update 9 1 1 demoResults)

/-- A running scan document, as the background thread sees it mid-run. -/
def demoRunningDoc : ScanDoc :=
  { demoPendingDoc with status := .running, started_at := some 1 }

/-- A running scan owned by `alice`, with one linked host document. -/
def c4Doc : ScanDoc :=
  { user_id := "alice", targets := "10.0.0.5", scan_profile := .full,
    status := .running, created_at := some 0, started_at := some 10,
    updated_at := some 10 }

/-- Store for the ownership-isolation witness. -/
def c4Db : Db :=
  { scans := [("scan-a", c4Doc)], nmap_hosts := [("h1", { scan_id := "scan-a" })] }

/-- A completed scan document owned by `u`. -/
def c6TermDoc : ScanDoc :=
  { user_id := "u", targets := "10.0.0.9", scan_profile := .quick, status := .completed }

/-- Store holding only the completed scan. -/
def c6TermDb : Db := { scans := [("s", c6TermDoc)] }

/-- A running scan document owned by `u`. -/
def c6RunDoc : ScanDoc :=
  { user_id := "u", targets := "10.0.0.9", scan_profile := .quick,
    status := .running, started_at := some 2 }

/-- Store holding only the running scan. -/
def c6RunDb : Db := { scans := [("s", c6RunDoc)] }

/-- An external-parser boundary that always fails structurally. -/
def failingFromstring : Fromstring :=
  fun _ => .error (.parseError "syntax error: line 1, column 0")

/-- Risky-service list exactly as the claim words it (`netbios` and
`terminal-services` instead of the `netbios-ssn` and `ms-wbt-server` of the
source). -/
def claimRiskyServices : List String :=
  ["ftp", "telnet", "rsh", "rlogin", "finger", "netbios",
   "microsoft-ds", "msrpc", "terminal-services"]

/-- Port indicator as the claim words it: the service name matches the
claimed risky-service list, compared case-insensitively. -/
def claimPortIndicator (p : PortInfo) : Bool :=
  match p.service with
  | some sv => claimRiskyServices.contains (pyLower sv)
  | none => false

/-- Script indicator as the claim words it: the finding id contains `vuln`
or `cve`, compared case-insensitively. -/
def claimScriptIndicator (sc : ScriptResult) : Bool :=
  strContains (pyLower sc.id) "vuln" || strContains (pyLower sc.id) "cve"

/-- Vulnerability-indicator count as the claim words it. -/
def claimVulnCount (hosts : List HostData) : Nat :=
  (hosts.map fun h =>
    (h.ports.filter claimPortIndicator).length +
      (h.scripts.filter claimScriptIndicator).length).sum

/-- Port indicator as the source computes it: a present, non-empty service
name whose lowercase form is in `VULNERABLE_SERVICES`. -/
def amendedPortIndicator (p : PortInfo) : Bool :=
  match p.service with
  | some sv => !(sv == "") && VULNERABLE_SERVICES.contains (pyLower sv)
  | none => false

/-- Script indicator as the source computes it: the id contains `vuln`
case-sensitively, or contains `cve` case-insensitively. -/
def amendedScriptIndicator (sc : ScriptResult) : Bool :=
  strContains sc.id "vuln" || strContains (pyLower sc.id) "cve"

/-- Vulnerability-indicator count of the amended claim. -/
def amendedVulnCount (hosts : List HostData) : Nat :=
  (hosts.map fun h =>
    (h.ports.filter amendedPortIndicator).length +
      (h.scripts.filter amendedScriptIndicator).length).sum

/-- A host whose single script finding has id `Vuln-check`: the claim counts
it (case-insensitive `vuln`), the source does not (its `vuln` test is
case-sensitive). -/
def c9Host : HostData :=
  { host_info := { status := "up" },
    scripts := [{ id := "Vuln-check", output := "" }] }

/-! ## Supporting lemmas -/

theorem dropWhile_dropWhile_same (p : Char → Bool) (l : List Char) :
    (l.dropWhile p).dropWhile p = l.dropWhile p := by
  induction l with
  | nil => simp
  | cons a t ih =>
    by_cases h : p a = true
    · simpa [List.dropWhile_cons, h] using ih
    · simp [List.dropWhile_cons, h]

theorem mem_dropWhile_of_not (p : Char → Bool) (c : Char) (l : List Char)
    (hmem : c ∈ l) (hc : p c = false) : c ∈ l.dropWhile p := by
  induction l with
  | nil => cases hmem
  | cons a t ih =>
    by_cases h : p a = true
    · rcases List.mem_cons.mp hmem with rfl | ht
      · rw [h] at hc; cases hc
      · simpa [List.dropWhile_cons, h] using ih ht
    · simpa [List.dropWhile_cons, h] using hmem

theorem mem_stripChars_of_not_space (c : Char) (l : List Char)
    (hmem : c ∈ l) (hc : pyIsSpace c = false) : c ∈ stripChars l := by
  unfold stripChars
  have h1 : c ∈ l.dropWhile pyIsSpace := mem_dropWhile_of_not _ _ _ hmem hc
  have h2 : c ∈ (l.dropWhile pyIsSpace).reverse := List.mem_reverse.mpr h1
  have h3 := mem_dropWhile_of_not _ _ _ h2 hc
  exact List.mem_reverse.mpr h3

theorem head_not_space_of_dropWhile (p : Char → Bool) (l : List Char) (a : Char)
    (h : (l.dropWhile p).head? = some a) : p a = false := by
  induction l with
  | nil => simp at h
  | cons b t ih =>
    by_cases hb : p b = true
    · rw [List.dropWhile_cons, if_pos hb] at h; exact ih h
    · rw [List.dropWhile_cons, if_neg hb] at h
      simp at h
      subst h
      simpa using hb

theorem stripChars_idem (l : List Char) : stripChars (stripChars l) = stripChars l := by
  have step1 : (stripChars l).dropWhile pyIsSpace = stripChars l := by
    rcases hh : (stripChars l).head? with _ | ⟨a⟩
    · have : stripChars l = [] := by
        cases hsl : stripChars l with
        | nil => rfl
        | cons x xs => rw [hsl] at hh; simp at hh
      rw [this]; rfl
    · -- the head of the stripped list survives the leading dropWhile of `l`
      have hpre : stripChars l <+: l.dropWhile pyIsSpace := by
        unfold stripChars
        have hsuf : ((l.dropWhile pyIsSpace).reverse).dropWhile pyIsSpace <:+
            (l.dropWhile pyIsSpace).reverse := List.dropWhile_suffix pyIsSpace
        have := List.reverse_prefix.mpr hsuf
        simpa using this
      obtain ⟨t, ht⟩ := hpre
      have hhead : (l.dropWhile pyIsSpace).head? = some a := by
        rw [← ht]
        cases hsl : stripChars l with
        | nil => rw [hsl] at hh; simp at hh
        | cons x xs =>
          rw [hsl] at hh
          simp at hh
          subst hh
          simp
      have hna : pyIsSpace a = false := head_not_space_of_dropWhile pyIsSpace l a hhead
      cases hsl : stripChars l with
      | nil => rfl
      | cons x xs =>
        rw [hsl] at hh
        simp at hh
        subst hh
        simp [List.dropWhile_cons, hna]
  have step2 : ((stripChars l).reverse).dropWhile pyIsSpace = (stripChars l).reverse := by
    unfold stripChars
    simpa using dropWhile_dropWhile_same pyIsSpace ((l.dropWhile pyIsSpace).reverse)
  calc stripChars (stripChars l)
      = (((stripChars l).dropWhile pyIsSpace).reverse.dropWhile pyIsSpace).reverse := rfl
    _ = ((stripChars l).reverse.dropWhile pyIsSpace).reverse := by rw [step1]
    _ = (stripChars l).reverse.reverse := by rw [step2]
    _ = stripChars l := by simp

theorem pyStrip_idem (s : String) : pyStrip (pyStrip s) = pyStrip s := by
  unfold pyStrip
  exact congrArg String.mk (stripChars_idem s.data)

theorem stripChars_eq_nil_of_all_space (l : List Char)
    (h : ∀ c ∈ l, pyIsSpace c = true) : stripChars l = [] := by
  unfold stripChars
  have h1 : l.dropWhile pyIsSpace = [] := List.dropWhile_eq_nil_iff.mpr h
  rw [h1]
  rfl

theorem shellMeta_not_space : ∀ c ∈ shellMetaChars, pyIsSpace c = false := by decide

theorem containsShellMeta_pyStrip (s : String) (h : containsShellMeta s = true) :
    containsShellMeta (pyStrip s) = true ∧ (pyStrip s).data ≠ [] := by
  unfold containsShellMeta at h ⊢
  rcases List.any_eq_true.mp h with ⟨c, hmem, hc⟩
  have hcm : c ∈ shellMetaChars :=
    List.mem_of_elem_eq_true (by simpa [List.contains] using hc)
  have hns : pyIsSpace c = false := shellMeta_not_space c hcm
  have hm : c ∈ stripChars s.data := mem_stripChars_of_not_space c s.data hmem hns
  constructor
  · exact List.any_eq_true.mpr ⟨c, by simpa [pyStrip] using hm, hc⟩
  · intro hnil
    rw [pyStrip] at hnil
    simp at hnil
    rw [hnil] at hm
    cases hm

theorem find_map_update (l : List (String × ScanDoc)) (id : String) (f : ScanDoc → ScanDoc) :
    (l.map fun pr => if pr.1 == id then (pr.1, f pr.2) else pr).find? (fun pr => pr.1 == id)
      = (l.find? fun pr => pr.1 == id).map fun pr => (pr.1, f pr.2) := by
  induction l with
  | nil => rfl
  | cons pr rest ih =>
    by_cases hb : (pr.1 == id) = true
    · rw [List.map_cons, if_pos hb]
      have h1 : List.find? (fun (q : String × ScanDoc) => q.1 == id)
          ((pr.1, f pr.2) :: rest.map fun q => if q.1 == id then (q.1, f q.2) else q)
            = some (pr.1, f pr.2) :=
        List.find?_cons_of_pos _ hb
      have h2 : List.find? (fun (q : String × ScanDoc) => q.1 == id) (pr :: rest)
          = some pr :=
        List.find?_cons_of_pos _ hb
      rw [h1, h2]
      rfl
    · rw [List.map_cons, if_neg hb]
      have h1 : List.find? (fun (q : String × ScanDoc) => q.1 == id)
          (pr :: rest.map fun q => if q.1 == id then (q.1, f q.2) else q)
            = List.find? (fun (q : String × ScanDoc) => q.1 == id)
                (rest.map fun q => if q.1 == id then (q.1, f q.2) else q) :=
        List.find?_cons_of_neg _ hb
      have h2 : List.find? (fun (q : String × ScanDoc) => q.1 == id) (pr :: rest)
          = List.find? (fun (q : String × ScanDoc) => q.1 == id) rest :=
        List.find?_cons_of_neg _ hb
      rw [h1, h2]
      exact ih

theorem getScanDoc_updateScanDoc (db : Db) (id : String) (f : ScanDoc → ScanDoc) :
    (db.updateScanDoc id f).getScanDoc id = (db.getScanDoc id).map f := by
  unfold Db.getScanDoc Db.updateScanDoc
  rw [show ({ db with scans := db.scans.map fun pr =>
        if pr.1 == id then (pr.1, f pr.2) else pr } : Db).scans
      = db.scans.map fun pr => if pr.1 == id then (pr.1, f pr.2) else pr from rfl]
  rw [find_map_update]
  cases db.scans.find? fun pr => pr.1 == id <;> rfl

theorem summaryPortStep_vi (acc : SummAcc) (p : PortInfo) :
    (summaryPortStep acc p).vulnerability_indicators
      = acc.vulnerability_indicators + (if amendedPortIndicator p then 1 else 0) := by
  unfold summaryPortStep amendedPortIndicator
  cases hs : p.service with
  | none =>
    cases hfind : HIGH_RISK_PORTS.find? fun pr => pr.1 == p.port <;> simp [hfind] <;>
      split_ifs <;> simp
  | some sv =>
    cases hfind : HIGH_RISK_PORTS.find? fun pr => pr.1 == p.port <;> simp [hfind] <;>
      split_ifs <;> simp_all

theorem summaryScriptStep_vi (acc : SummAcc) (sc : ScriptResult) :
    (summaryScriptStep acc sc).vulnerability_indicators
      = acc.vulnerability_indicators + (if amendedScriptIndicator sc then 1 else 0) := by
  unfold summaryScriptStep amendedScriptIndicator
  split_ifs <;> simp_all

theorem foldl_portStep_vi (ps : List PortInfo) (acc : SummAcc) :
    (ps.foldl summaryPortStep acc).vulnerability_indicators
      = acc.vulnerability_indicators + (ps.filter amendedPortIndicator).length := by
  induction ps generalizing acc with
  | nil => simp
  | cons p rest ih =>
    rw [List.foldl_cons, ih, summaryPortStep_vi]
    by_cases hp : amendedPortIndicator p = true <;>
      simp [hp, List.filter_cons] <;> omega

theorem foldl_scriptStep_vi (scs : List ScriptResult) (acc : SummAcc) :
    (scs.foldl summaryScriptStep acc).vulnerability_indicators
      = acc.vulnerability_indicators + (scs.filter amendedScriptIndicator).length := by
  induction scs generalizing acc with
  | nil => simp
  | cons sc rest ih =>
    rw [List.foldl_cons, ih, summaryScriptStep_vi]
    by_cases hsc : amendedScriptIndicator sc = true <;>
      simp [hsc, List.filter_cons] <;> omega

theorem summaryHostStep_vi (acc : SummAcc) (h : HostData) :
    (summaryHostStep acc h).vulnerability_indicators
      = acc.vulnerability_indicators + ((h.ports.filter amendedPortIndicator).length
          + (h.scripts.filter amendedScriptIndicator).length) := by
  unfold summaryHostStep
  rw [foldl_scriptStep_vi, foldl_portStep_vi]
  split_ifs <;> simp [Nat.add_assoc]

theorem foldl_hostStep_vi (hs : List HostData) (acc : SummAcc) :
    (hs.foldl summaryHostStep acc).vulnerability_indicators
      = acc.vulnerability_indicators + amendedVulnCount hs := by
  induction hs generalizing acc with
  | nil => simp [amendedVulnCount]
  | cons h rest ih =>
    rw [List.foldl_cons, ih, summaryHostStep_vi]
    simp [amendedVulnCount]
    omega

/-! ## Claim theorems -/

/-- C1 counterexample: the target string `::1%;` contains the shell
metacharacter `;`, yet `ScanService.validate_targets` reports it valid —
`ipaddress.ip_address` accepts an IPv6 literal whose scope id carries the
metacharacter, and the service-side validator has no metacharacter check of
its own. -/
theorem C1_counterexample :
    (validate_targets dnsNone "::1%;").is_valid = true ∧
      containsShellMeta "::1%;" = true := by decide

/-- C2 counterexample: cancelling the pending scan succeeds and leaves it in
the terminal CANCELLED state, but the background completion write afterwards
moves it to COMPLETED — a transition out of a terminal state. -/
theorem C2_counterexample :
    (cancel_scan 5 demoDb0 "scan-1" "alice").1 = true ∧
    (demoDbCancelled.getScanDoc "scan-1").map ScanDoc.status = some .cancelled ∧
    ScanStatus.cancelled.isTerminal = true ∧
    (demoDbOverwritten.getScanDoc "scan-1").map ScanDoc.status = some .completed := by
  decide

/-- C3: with one host up and one open port counted, the background execution
writes `risk_score = min(100, 1*10 + 1*5) = 15`, violating the bound
`risk_score ∈ [0, 10]` declared on the persisted scan model. -/
theorem C3_risk_score_exceeds_bound :
    bg_risk_score 1 1 = 15 ∧
    ¬ scanRiskScoreInBounds (bg_risk_score 1 1) ∧
    (bg_complete_update 9 1 1 demoResults demoRunningDoc).risk_score = 15 := by
  have h15 : bg_risk_score 1 1 = 15 := by
    unfold bg_risk_score
    have harg : ((1 : Nat) : Rat) * 10 + ((1 : Nat) : Rat) * 5 = 15 := by norm_num
    rw [harg]
    exact min_eq_right (by norm_num)
  refine ⟨h15, ?_, ?_⟩
  · rw [h15]
    intro hin
    have h10 := hin.2
    norm_num at h10
  · exact h15

/-- C5 counterexample: `validate_targets` applied to the empty and to a
whitespace-only specification reports both valid (the token loop runs over
zero tokens and falls through to the valid outcome). -/
theorem C5_counterexample :
    (validate_targets dnsNone "").is_valid = true ∧
      (validate_targets dnsNone "   ").is_valid = true := by decide

/-- C8: the helper `_validate_ip_range` does implement the claimed rule
(`192.168.1.5-10` passes, `192.168.1.10-5` and `192.168.1.1-300` fail), but
`validate_targets` classifies all three strings as hostnames first — the
charset `[a-zA-Z0-9.-]` covers every dotted hyphen range — so the whole
request is reported valid and the range rule is never consulted. -/
theorem C8_hyphen_range_shadowed :
    validate_ip_range "192.168.1.5-10" = true ∧
    validate_ip_range "192.168.1.10-5" = false ∧
    validate_ip_range "192.168.1.1-300" = false ∧
    is_hostname "192.168.1.10-5" = true ∧
    (validate_targets dnsNone "192.168.1.5-10").is_valid = true ∧
    (validate_targets dnsNone "192.168.1.10-5").is_valid = true ∧
    (validate_targets dnsNone "192.168.1.1-300").is_valid = true := by decide

/-- C9 counterexample: a script finding with id `Vuln-check` matches the
claimed case-insensitive `vuln` test, but the source counts no indicator for
it, because its `vuln` substring test does not lowercase the id. -/
theorem C9_counterexample :
    claimVulnCount [c9Host] = 1 ∧
      (generate_summary [c9Host]).vulnerabilities_found = 0 := by decide

/-- C1 amended: for every target containing a shell metacharacter, the
executor-side validator `NmapRunner.validate_target` reports it invalid, and
`NmapRunner.execute_scan` refuses before the subprocess boundary, so no scan
process is ever spawned for such input. -/
theorem C1_meta_never_spawns (target : String)
    (h : containsShellMeta target = true) :
    (validate_target target).1 = false ∧
    ∀ (available : Bool) (nmapPath : String) (profile : ScanProfile)
      (command : List String),
      execute_scan available nmapPath target profile ≠ ExecOutcome.spawned command := by
  obtain ⟨hmeta, hne⟩ := containsShellMeta_pyStrip target h
  have hempty : ((pyStrip target).data).isEmpty = false := by
    cases hd : (pyStrip target).data with
    | nil => exact absurd hd hne
    | cons a t => rfl
  have hv : validate_target target = (false, "Target contains forbidden characters") := by
    unfold validate_target
    simp [hempty, hmeta]
  refine ⟨by rw [hv], ?_⟩
  intro available nmapPath profile command
  unfold execute_scan
  cases available with
  | false => simp
  | true => simp [hv]

/-- C1 witness: the bare semicolon target. -/
theorem C1_meta_never_spawns_witness :
    containsShellMeta ";" = true ∧ (validate_target ";").1 = false ∧
      execute_scan true "nmap" ";" .quick ≠ ExecOutcome.spawned ["nmap"] := by
  have h := C1_meta_never_spawns ";" (by decide)
  exact ⟨by decide, h.1, h.2 true "nmap" .quick ["nmap"]⟩

/-- C2 amended: cancellation against a scan already in a terminal state is
rejected and leaves the store untouched (the background completion and
failure writes, by contrast, overwrite terminal states, as the
counterexample shows). -/
theorem C2_cancel_terminal_rejected (now : Rat) (db : Db) (sid uid : String)
    (doc : ScanDoc) (hget : db.getScanDoc sid = some doc)
    (hterm : doc.status.isTerminal = true) :
    cancel_scan now db sid uid = (false, db) := by
  unfold cancel_scan get_scan
  rw [hget]
  by_cases hown : (doc.user_id != uid) = true
  · simp [hown]
  · simp only [Bool.not_eq_true] at hown
    cases hst : doc.status <;> simp_all [ScanStatus.isTerminal, hown]

/-- C2 witness: cancelling a completed scan is rejected. -/
theorem C2_cancel_terminal_rejected_witness :
    cancel_scan 3 c6TermDb "s" "u" = (false, c6TermDb) :=
  C2_cancel_terminal_rejected 3 c6TermDb "s" "u" c6TermDoc (by decide) (by decide)

/-- C4: every per-scan operation invoked by a principal that does not own
the scan returns exactly what it returns for an id that is absent from the
store — not-found for the reads, `false` with an unchanged store for cancel
and delete. -/
theorem C4_ownership_isolation (now : Rat) (db : Db) (sid sid2 uid : String)
    (doc : ScanDoc) (hsome : db.getScanDoc sid = some doc)
    (howner : doc.user_id ≠ uid) (habsent : db.getScanDoc sid2 = none) :
    get_scan db sid uid = get_scan db sid2 uid ∧
    get_scan_progress now db sid uid = get_scan_progress now db sid2 uid ∧
    cancel_scan now db sid uid = cancel_scan now db sid2 uid ∧
    delete_scan now db sid uid = delete_scan now db sid2 uid ∧
    get_scan db sid uid = none ∧
    cancel_scan now db sid uid = (false, db) ∧
    delete_scan now db sid uid = (false, db) := by
  have hb : (doc.user_id != uid) = true := bne_iff_ne.mpr howner
  have h1 : get_scan db sid uid = none := by
    unfold get_scan
    rw [hsome]
    simp [hb]
  have h2 : get_scan db sid2 uid = none := by
    unfold get_scan
    rw [habsent]
  have hp1 : get_scan_progress now db sid uid = none := by
    unfold get_scan_progress
    rw [h1]
  have hp2 : get_scan_progress now db sid2 uid = none := by
    unfold get_scan_progress
    rw [h2]
  have hc1 : cancel_scan now db sid uid = (false, db) := by
    unfold cancel_scan
    rw [h1]
  have hc2 : cancel_scan now db sid2 uid = (false, db) := by
    unfold cancel_scan
    rw [h2]
  have hd1 : delete_scan now db sid uid = (false, db) := by
    unfold delete_scan
    rw [h1]
  have hd2 : delete_scan now db sid2 uid = (false, db) := by
    unfold delete_scan
    rw [h2]
  exact ⟨h1.trans h2.symm, hp1.trans hp2.symm, hc1.trans hc2.symm,
    hd1.trans hd2.symm, h1, hc1, hd1⟩

/-- C4 witness: requester `bob` against a scan owned by `alice`. -/
theorem C4_ownership_isolation_witness :
    get_scan c4Db "scan-a" "bob" = none ∧
    cancel_scan 20 c4Db "scan-a" "bob" = (false, c4Db) ∧
    delete_scan 20 c4Db "scan-a" "bob" = (false, c4Db) := by
  have h := C4_ownership_isolation 20 c4Db "scan-a" "missing-id" "bob" c4Doc
    (by decide) (by decide) (by decide)
  exact ⟨h.2.2.2.2.1, h.2.2.2.2.2.1, h.2.2.2.2.2.2⟩

/-- C5 amended: validation is invariant under stripping its input, and an
empty or whitespace-only target specification is not rejected — it yields
the valid outcome with no resolved addresses. -/
theorem C5_empty_input_accepted (dns : DnsOracle) (s : String) :
    validate_targets dns s = validate_targets dns (pyStrip s) ∧
    ((∀ c ∈ s.data, pyIsSpace c = true) →
      validate_targets dns s = ⟨"", true, "Targets are valid", [], []⟩) := by
  have p1 : validate_targets dns s = validate_targets dns (pyStrip s) := by
    unfold validate_targets
    rw [pyStrip_idem]
  refine ⟨p1, fun h => ?_⟩
  have h0 : pyStrip s = "" := by
    unfold pyStrip
    rw [stripChars_eq_nil_of_all_space s.data h]
  calc validate_targets dns s = validate_targets dns (pyStrip s) := p1
    _ = validate_targets dns "" := by rw [h0]
    _ = ⟨"", true, "Targets are valid", [], []⟩ := rfl

/-- C5 witness: a three-space input is accepted as valid. -/
theorem C5_empty_input_accepted_witness :
    validate_targets dnsNone "   " = ⟨"", true, "Targets are valid", [], []⟩ :=
  (C5_empty_input_accepted dnsNone "   ").2 (by decide)

/-- C6: for a scan the requester owns, cancel is rejected without a write
when the status is terminal, and for a pending or running scan it succeeds,
after which the stored status is CANCELLED and `completed_at` carries the
cancellation time. -/
theorem C6_cancel_lifecycle (now : Rat) (db : Db) (sid uid : String)
    (doc : ScanDoc) (hget : db.getScanDoc sid = some doc)
    (hown : doc.user_id = uid) :
    ((doc.status = .completed ∨ doc.status = .failed ∨ doc.status = .cancelled) →
      cancel_scan now db sid uid = (false, db)) ∧
    ((doc.status = .pending ∨ doc.status = .running) →
      (cancel_scan now db sid uid).1 = true ∧
      ∃ doc2, ((cancel_scan now db sid uid).2).getScanDoc sid = some doc2 ∧
        doc2.status = .cancelled ∧ doc2.completed_at = some now) := by
  have hg : get_scan db sid uid = some doc := by
    unfold get_scan
    rw [hget]
    simp [hown]
  constructor
  · intro hterm
    unfold cancel_scan
    rw [hg]
    rcases hterm with h | h | h <;> simp [h]
  · intro hrun
    have hres : cancel_scan now db sid uid =
        (true, db.updateScanDoc sid fun r =>
          { r with status := .cancelled, completed_at := some now,
                   updated_at := some now,
                   error_message := some "Scan cancelled by user" }) := by
      unfold cancel_scan
      rw [hg]
      rcases hrun with h | h <;> simp [h]
    refine ⟨by rw [hres], ?_⟩
    have hdoc2 : ((cancel_scan now db sid uid).2).getScanDoc sid =
        some { doc with status := .cancelled,
                        completed_at := some now,
                        updated_at := some now,
                        error_message := some "Scan cancelled by user" } := by
      rw [hres]
      rw [getScanDoc_updateScanDoc, hget]
      rfl
    exact ⟨_, hdoc2, rfl, rfl⟩

/-- C6 witness: rejected on a completed scan, successful on a running one. -/
theorem C6_cancel_lifecycle_witness :
    cancel_scan 7 c6TermDb "s" "u" = (false, c6TermDb) ∧
      (cancel_scan 7 c6RunDb "s" "u").1 = true := by
  have h1 := (C6_cancel_lifecycle 7 c6TermDb "s" "u" c6TermDoc
    (by decide) (by decide)).1 (Or.inl (by decide))
  have h2 := ((C6_cancel_lifecycle 7 c6RunDb "s" "u" c6RunDoc
    (by decide) (by decide)).2 (Or.inr (by decide))).1
  exact ⟨h1, h2⟩

/-- C7: when the external XML parser fails structurally, `parse_xml` returns
the zeroed result — no hosts, a default summary, the raw input preserved —
with exactly the failure reason recorded, and in particular a non-empty
parse-errors list; no exception escapes. -/
theorem C7_parse_failure_shape (fromstring : Fromstring) (s : String)
    (e : XmlFailure) (h : fromstring s = .error e) :
    parse_xml fromstring s =
      { scan_info := [], hosts := [], summary := {}, raw_xml := s,
        parse_errors := [xmlFailureMessage e] } ∧
    (parse_xml fromstring s).hosts = [] ∧
    (parse_xml fromstring s).summary = ({} : ScanSummary) ∧
    (parse_xml fromstring s).parse_errors ≠ [] := by
  have hres : parse_xml fromstring s =
      { scan_info := [], hosts := [], summary := {}, raw_xml := s,
        parse_errors := [xmlFailureMessage e] } := by
    unfold parse_xml
    rw [h]
  refine ⟨hres, by rw [hres], by rw [hres], ?_⟩
  rw [hres]
  simp

/-- C7 witness: a structurally broken payload through the failing parser. -/
theorem C7_parse_failure_shape_witness :
    parse_xml failingFromstring "<nmaprun><host" =
      { scan_info := [], hosts := [], summary := {},
        raw_xml := "<nmaprun><host",
        parse_errors := ["XML parsing error: syntax error: line 1, column 0"] } ∧
    (parse_xml failingFromstring "<nmaprun><host").parse_errors ≠ [] := by
  have h := C7_parse_failure_shape failingFromstring "<nmaprun><host"
    (.parseError "syntax error: line 1, column 0") rfl
  exact ⟨h.1, h.2.2.2⟩

/-- C9 amended: over every list of parsed hosts, the summary counter equals
the count of ports with a non-empty service whose lowercase name is in the
source list (which has `netbios-ssn` and `ms-wbt-server` in place of the
claimed `netbios` and `terminal-services`) plus the count of scripts whose
id contains `vuln` case-sensitively or `cve` case-insensitively. -/
theorem C9_vuln_counter_characterised (hosts : List HostData) :
    (generate_summary hosts).vulnerabilities_found = amendedVulnCount hosts := by
  have hproj : (generate_summary hosts).vulnerabilities_found
      = (hosts.foldl summaryHostStep
          { summary := { total_hosts := hosts.length }, all_services := [],
            vulnerability_indicators := 0, risk_factors := [] }).vulnerability_indicators :=
    rfl
  rw [hproj, foldl_hostStep_vi]
  simp

/-- C9 witness: the characterisation applied to the counterexample host. -/
theorem C9_vuln_counter_characterised_witness :
    (generate_summary [c9Host]).vulnerabilities_found = amendedVulnCount [c9Host] :=
  C9_vuln_counter_characterised [c9Host]

/-- C10: the risk-level mapping is exactly the inclusive-lower-bound
partition of the score line, and the claimed boundary examples evaluate
accordingly. -/
theorem C10_risk_level_thresholds (s : Rat) :
    (score_to_risk_level s = .critical ↔ 9 ≤ s) ∧
    (score_to_risk_level s = .high ↔ 7 ≤ s ∧ s < 9) ∧
    (score_to_risk_level s = .medium ↔ 4 ≤ s ∧ s < 7) ∧
    (score_to_risk_level s = .low ↔ 1 ≤ s ∧ s < 4) ∧
    (score_to_risk_level s = .info ↔ s < 1) ∧
    score_to_risk_level 9 = .critical ∧
    score_to_risk_level (8999 / 1000) = .high ∧
    score_to_risk_level 7 = .high ∧
    score_to_risk_level (6999 / 1000) = .medium ∧
    score_to_risk_level 4 = .medium ∧
    score_to_risk_level 1 = .low ∧
    score_to_risk_level (999 / 1000) = .info := by
  refine ⟨?_, ?_, ?_, ?_, ?_, ?_, ?_, ?_, ?_, ?_, ?_, ?_⟩
  · constructor
    · intro he
      unfold score_to_risk_level at he
      split_ifs at he with h1 h2 h3 h4
      exact h1
    · intro h9
      unfold score_to_risk_level
      rw [if_pos h9]
  · constructor
    · intro he
      unfold score_to_risk_level at he
      split_ifs at he with h1 h2 h3 h4
      exact ⟨h2, lt_of_not_le h1⟩
    · rintro ⟨h7, h9⟩
      unfold score_to_risk_level
      rw [if_neg (not_le.mpr h9), if_pos h7]
  · constructor
    · intro he
      unfold score_to_risk_level at he
      split_ifs at he with h1 h2 h3 h4
      exact ⟨h3, lt_of_not_le h2⟩
    · rintro ⟨h4le, h7lt⟩
      unfold score_to_risk_level
      rw [if_neg (not_le.mpr (lt_of_lt_of_le h7lt (by norm_num))),
        if_neg (not_le.mpr h7lt), if_pos h4le]
  · constructor
    · intro he
      unfold score_to_risk_level at he
      split_ifs at he with h1 h2 h3 h4
      exact ⟨h4, lt_of_not_le h3⟩
    · rintro ⟨h1le, h4lt⟩
      unfold score_to_risk_level
      rw [if_neg (not_le.mpr (lt_of_lt_of_le h4lt (by norm_num))),
        if_neg (not_le.mpr (lt_of_lt_of_le h4lt (by norm_num))),
        if_neg (not_le.mpr h4lt), if_pos h1le]
  · constructor
    · intro he
      unfold score_to_risk_level at he
      split_ifs at he with h1 h2 h3 h4
      exact lt_of_not_le h4
    · intro h1lt
      unfold score_to_risk_level
      rw [if_neg (not_le.mpr (lt_of_lt_of_le h1lt (by norm_num))),
        if_neg (not_le.mpr (lt_of_lt_of_le h1lt (by norm_num))),
        if_neg (not_le.mpr (lt_of_lt_of_le h1lt (by norm_num))),
        if_neg (not_le.mpr h1lt)]
  · unfold score_to_risk_level
    rw [if_pos (by norm_num : (9 : Rat) ≤ 9)]
  · unfold score_to_risk_level
    rw [if_neg (by norm_num : ¬ (9 : Rat) ≤ 8999 / 1000),
      if_pos (by norm_num : (7 : Rat) ≤ 8999 / 1000)]
  · unfold score_to_risk_level
    rw [if_neg (by norm_num : ¬ (9 : Rat) ≤ 7), if_pos (by norm_num : (7 : Rat) ≤ 7)]
  · unfold score_to_risk_level
    rw [if_neg (by norm_num : ¬ (9 : Rat) ≤ 6999 / 1000),
      if_neg (by norm_num : ¬ (7 : Rat) ≤ 6999 / 1000),
      if_pos (by norm_num : (4 : Rat) ≤ 6999 / 1000)]
  · unfold score_to_risk_level
    rw [if_neg (by norm_num : ¬ (9 : Rat) ≤ 4), if_neg (by norm_num : ¬ (7 : Rat) ≤ 4),
      if_pos (by norm_num : (4 : Rat) ≤ 4)]
  · unfold score_to_risk_level
    rw [if_neg (by norm_num : ¬ (9 : Rat) ≤ 1), if_neg (by norm_num : ¬ (7 : Rat) ≤ 1),
      if_neg (by norm_num : ¬ (4 : Rat) ≤ 1), if_pos (by norm_num : (1 : Rat) ≤ 1)]
  · unfold score_to_risk_level
    rw [if_neg (by norm_num : ¬ (9 : Rat) ≤ 999 / 1000),
      if_neg (by norm_num : ¬ (7 : Rat) ≤ 999 / 1000),
      if_neg (by norm_num : ¬ (4 : Rat) ≤ 999 / 1000),
      if_neg (by norm_num : ¬ (1 : Rat) ≤ 999 / 1000)]

/-- C10 witness: the mapping applied at the exact CRITICAL boundary. -/
theorem C10_risk_level_thresholds_witness :
    score_to_risk_level 9 = .critical :=
  (C10_risk_level_thresholds 9).1.mpr (by norm_num)

end Cynerra
